import Mathlib

/-!
Verification of the iterator-facade framework in dune-common-fallback
(src/common/iteratorfacades.hh) and the sign utility (src/dune/common/math.hh).

The C++ facades use the curiously recurring template pattern: a derived
concrete iterator type supplies primitive operations (dereference, equals,
increment, decrement, advance, distanceTo, elementAt) and the facade base
classes plus free operators synthesize the full iterator operator surface.
We shallowly embed this by abstracting a concrete iterator type as a Lean
type together with a record of its primitive operations; the synthesized
operators are Lean functions defined exactly as the C++ operator bodies,
with C++ in-place mutation of the iterator turned into explicit state
passing (a member function that mutates `*this` becomes a function
returning the new state; an operator that returns a value and may mutate
`this` becomes a function returning the pair (returned value, new state
of `this`)).

Difference types (template parameter D, defaulting to std::ptrdiff_t) are
modelled as Int.
-/

namespace Dune

/-- The primitive operations a concrete type must supply to
`ForwardIteratorFacade` (iteratorfacades.hh lines 131-209): `dereference`,
`equals` and `increment`. `increment` mutates the iterator in place in C++,
so here it maps a state to the new state. -/
structure ForwardPrims (α : Type) (V : Type) where
  dereference : α → V
  equals : α → α → Bool
  increment : α → α

/-- Pre-increment `operator++()` (lines 196-200): invokes the `increment`
primitive on self and returns self. -/
def fwdPreInc {α V : Type} (F : ForwardPrims α V) (it : α) : α :=
  F.increment it

/-- Post-increment `operator++(int)` (lines 203-208): copies self into `tmp`,
invokes pre-increment on self, returns `tmp`. The result pair is
(returned copy, state of self after the call). -/
def fwdPostInc {α V : Type} (F : ForwardPrims α V) (it : α) : α × α :=
  (it, fwdPreInc F it)

/-- Dereference `operator*` (lines 185-188): delegates to the `dereference`
primitive. -/
def fwdStar {α V : Type} (F : ForwardPrims α V) (it : α) : V :=
  F.dereference it

/-- The primitive operations a concrete type must supply to
`BidirectionalIteratorFacade` (lines 259-357): the forward set plus
`decrement`. -/
structure BidirectionalPrims (α : Type) (V : Type) where
  dereference : α → V
  equals : α → α → Bool
  increment : α → α
  decrement : α → α

/-- Pre-increment of the bidirectional facade (lines 328-332): invokes the
`increment` primitive. -/
def bidPreInc {α V : Type} (B : BidirectionalPrims α V) (it : α) : α :=
  B.increment it

/-- Pre-decrement `operator--()` of the bidirectional facade (lines 344-348):
invokes the `decrement` primitive. -/
def bidPreDec {α V : Type} (B : BidirectionalPrims α V) (it : α) : α :=
  B.decrement it

/-- The primitive operations a concrete type must supply to
`RandomAccessIteratorFacade` (lines 407-549): the bidirectional set plus
`elementAt`, `advance` and `distanceTo`. -/
structure RandomAccessPrims (α : Type) (V : Type) where
  dereference : α → V
  equals : α → α → Bool
  increment : α → α
  decrement : α → α
  elementAt : α → Int → V
  advance : α → Int → α
  distanceTo : α → α → Int

/-- Dereference `operator*` of the random access facade (lines 471-474). -/
def raStar {α V : Type} (R : RandomAccessPrims α V) (it : α) : V :=
  R.dereference it

/-- Indexing `operator[](n)` (lines 486-489): delegates directly to the
`elementAt` primitive without touching the position. -/
def raIndex {α V : Type} (R : RandomAccessPrims α V) (it : α) (n : Int) : V :=
  R.elementAt it n

/-- `operator+(n)` (lines 512-517): copies self into `tmp`, calls
`tmp.advance(n)` and returns `tmp`; self is never touched. Result pair is
(returned iterator, state of self after the call). -/
def raAdd {α V : Type} (R : RandomAccessPrims α V) (it : α) (n : Int) : α × α :=
  (R.advance it n, it)

/-- `operator-(n)` for an offset (lines 541-546): copies self into `tmp`,
calls `tmp.advance(-n)` and returns `tmp`; self is never touched. Result
pair is (returned iterator, state of self after the call). -/
def raSubOff {α V : Type} (R : RandomAccessPrims α V) (it : α) (n : Int) : α × α :=
  (R.advance it (-n), it)

/-- `operator+=(n)` (lines 506-510): invokes `advance(n)` on self. -/
def raAddEq {α V : Type} (R : RandomAccessPrims α V) (it : α) (n : Int) : α :=
  R.advance it n

/-- `operator-=(n)` (lines 535-539): invokes `advance(-n)` on self. -/
def raSubEq {α V : Type} (R : RandomAccessPrims α V) (it : α) (n : Int) : α :=
  R.advance it (-n)

/-- A pair of facade instantiations over two (possibly different) concrete
iterator types, as seen by the binary free operators
(`operator==`, `operator!=`, `operator<`, ..., iterator `operator-`).
`conv21` models `Conversion<T2,T1>::exists` (the right-hand concrete type is
implicitly convertible to the left-hand one) and `conv12` the reverse
direction; the free operators are enabled via `EnableIfInterOperable`, i.e.
only when `conv12 || conv21` holds. `equalsL lhs rhs` models
`lhs.equals(rhs)` (the left type's primitive applied to the converted right
operand) and `equalsR rhs lhs` models `rhs.equals(lhs)`; likewise for
`distanceTo`. -/
structure FacadePair (α : Type) (β : Type) where
  conv12 : Bool
  conv21 : Bool
  equalsL : α → β → Bool
  equalsR : β → α → Bool
  distanceToL : α → β → Int
  distanceToR : β → α → Int

/-- Free `operator==` (lines 561-571, identical at lines 221-231 and
369-379): if `Conversion<T2,T1>::exists` then `lhs.equals(rhs)` else
`rhs.equals(lhs)`. -/
def facadeEq {α β : Type} (P : FacadePair α β) (lhs : α) (rhs : β) : Bool :=
  if P.conv21 then P.equalsL lhs rhs else P.equalsR rhs lhs

/-- Free `operator!=` (lines 583-593): the negation of the dispatched
`equals` call. -/
def facadeNe {α β : Type} (P : FacadePair α β) (lhs : α) (rhs : β) : Bool :=
  if P.conv21 then !(P.equalsL lhs rhs) else !(P.equalsR rhs lhs)

/-- Free `operator<` (lines 605-615): if `Conversion<T2,T1>::exists` then
`lhs.distanceTo(rhs) > 0` else `rhs.distanceTo(lhs) < 0`. -/
def facadeLt {α β : Type} (P : FacadePair α β) (lhs : α) (rhs : β) : Bool :=
  if P.conv21 then decide (P.distanceToL lhs rhs > 0)
  else decide (P.distanceToR rhs lhs < 0)

/-- Free `operator<=` (lines 628-638). -/
def facadeLe {α β : Type} (P : FacadePair α β) (lhs : α) (rhs : β) : Bool :=
  if P.conv21 then decide (P.distanceToL lhs rhs ≥ 0)
  else decide (P.distanceToR rhs lhs ≤ 0)

/-- Free `operator>` (lines 651-661). -/
def facadeGt {α β : Type} (P : FacadePair α β) (lhs : α) (rhs : β) : Bool :=
  if P.conv21 then decide (P.distanceToL lhs rhs < 0)
  else decide (P.distanceToR rhs lhs > 0)

/-- Free `operator>=` (lines 673-683). -/
def facadeGe {α β : Type} (P : FacadePair α β) (lhs : α) (rhs : β) : Bool :=
  if P.conv21 then decide (P.distanceToL lhs rhs ≤ 0)
  else decide (P.distanceToR rhs lhs ≥ 0)

/-- Free iterator-minus-iterator `operator-` (lines 695-705): if
`Conversion<T2,T1>::exists` then `-lhs.distanceTo(rhs)` else
`rhs.distanceTo(lhs)`. -/
def facadeSub {α β : Type} (P : FacadePair α β) (lhs : α) (rhs : β) : Int :=
  if P.conv21 then -(P.distanceToL lhs rhs) else P.distanceToR rhs lhs

/-- The `FacadePair` arising when both operands have the same concrete type:
`Conversion<T,T>::exists` holds in both directions and both sides invoke the
same primitives. -/
def RandomAccessPrims.selfPair {α V : Type} (R : RandomAccessPrims α V) :
    FacadePair α α where
  conv12 := true
  conv21 := true
  equalsL := R.equals
  equalsR := R.equals
  distanceToL := R.distanceTo
  distanceToR := R.distanceTo

/-- The sign utility from src/dune/common/math.hh lines 176-180:
`return (val < 0 ? -1 : 1);`. -/
def sign (val : Int) : Int :=
  if val < 0 then -1 else 1

/-! Concrete instantiations used to witness the hypotheses of the theorems
below. `IntPos` plays the role of a concrete random access iterator whose
state is just an integer position into an unbounded integer sequence where
the element at position p is p itself; its primitives follow the shape of
the `TestIterator` example documented at the top of iteratorfacades.hh. -/

/-- A concrete `RandomAccessPrims` instance on integer positions:
`equals` compares positions, `advance` adds the offset and
`distanceTo(other)` is `other.position - position` as in the
`TestIterator` documentation example. -/
def intRA : RandomAccessPrims Int Int where
  dereference := fun it => it
  equals := fun a b => a == b
  increment := fun it => it + 1
  decrement := fun it => it - 1
  elementAt := fun it n => it + n
  advance := fun it n => it + n
  distanceTo := fun a b => b - a

/-- A concrete `BidirectionalPrims` instance on integer positions. -/
def intBid : BidirectionalPrims Int Int where
  dereference := fun it => it
  equals := fun a b => a == b
  increment := fun it => it + 1
  decrement := fun it => it - 1

/-- A concrete interoperable pair where only the left-to-right conversion
exists (`conv21 = false`), so the free operators dispatch to the right-hand
side's primitives. Both sides use the position-difference `distanceTo` of
`intRA`. -/
def rightPair : FacadePair Int Int where
  conv12 := true
  conv21 := false
  equalsL := fun a b => a == b
  equalsR := fun b a => b == a
  distanceToL := fun a b => b - a
  distanceToR := fun b a => a - b

end Dune

namespace Dune

/-- Claim C1: for an interoperable pair of random access facade iterators,
if the concrete `distanceTo` primitives are antisymmetric across the pair,
the synthesized `operator<` returns true iff `lhs.distanceTo(rhs) > 0`,
whichever dispatch direction `Conversion<T2,T1>::exists` selects. -/
theorem facadeLt_sign_convention {α β : Type} (P : FacadePair α β)
    (lhs : α) (rhs : β)
    (hinterop : P.conv12 = true ∨ P.conv21 = true)
    (hanti : ∀ (a : α) (b : β), P.distanceToL a b = -(P.distanceToR b a)) :
    facadeLt P lhs rhs = decide (P.distanceToL lhs rhs > 0) := by
  clear hinterop
  unfold facadeLt
  by_cases h : P.conv21 = true
  · simp [h]
  · simp only [h, if_neg, Bool.false_eq_true, if_false]
    rw [hanti lhs rhs]
    simp only [decide_eq_decide]
    omega

/-- Witness for C1: the hypotheses hold and the conclusion evaluates at the
concrete pair `rightPair`, whose dispatch takes the right-hand branch. -/
theorem facadeLt_sign_convention_witness :
    ((rightPair.conv12 = true ∨ rightPair.conv21 = true) ∧
      (∀ (a b : Int), rightPair.distanceToL a b = -(rightPair.distanceToR b a))) ∧
    facadeLt rightPair 2 5 = decide (rightPair.distanceToL 2 5 > 0) := by
  refine ⟨⟨Or.inl rfl, fun a b => ?_⟩, facadeLt_sign_convention rightPair 2 5
    (Or.inl rfl) (fun a b => ?_)⟩ <;>
    · show b - a = -(a - b)
      omega

/-- Claim C2: for an interoperable pair of random access facade iterators,
if the concrete `distanceTo` primitives are antisymmetric across the pair,
the synthesized iterator-minus-iterator operator returns
`-lhs.distanceTo(rhs)`, whichever dispatch direction the resolver takes. -/
theorem facadeSub_sign_convention {α β : Type} (P : FacadePair α β)
    (lhs : α) (rhs : β)
    (hinterop : P.conv12 = true ∨ P.conv21 = true)
    (hanti : ∀ (a : α) (b : β), P.distanceToL a b = -(P.distanceToR b a)) :
    facadeSub P lhs rhs = -(P.distanceToL lhs rhs) := by
  clear hinterop
  unfold facadeSub
  by_cases h : P.conv21 = true
  · simp [h]
  · simp only [h, if_neg, Bool.false_eq_true, if_false]
    rw [hanti lhs rhs]
    omega

/-- Witness for C2: the hypotheses hold and the conclusion evaluates at the
concrete pair `rightPair`. -/
theorem facadeSub_sign_convention_witness :
    ((rightPair.conv12 = true ∨ rightPair.conv21 = true) ∧
      (∀ (a b : Int), rightPair.distanceToL a b = -(rightPair.distanceToR b a))) ∧
    facadeSub rightPair 2 7 = -(rightPair.distanceToL 2 7) := by
  refine ⟨⟨Or.inl rfl, fun a b => ?_⟩, facadeSub_sign_convention rightPair 2 7
    (Or.inl rfl) (fun a b => ?_)⟩ <;>
    · show b - a = -(a - b)
      omega

/-- Claim C3: when both directions of conversion exist
(`Conversion<T2,T1>::exists` in particular holds), every synthesized binary
operator dispatches to the left-hand side's primitive: equality tests are
`lhs.equals(rhs)`, the comparisons and the difference are computed from
`lhs.distanceTo(rhs)`. -/
theorem facade_dispatch_prefers_left {α β : Type} (P : FacadePair α β)
    (lhs : α) (rhs : β)
    (hboth : P.conv12 = true ∧ P.conv21 = true) :
    facadeEq P lhs rhs = P.equalsL lhs rhs ∧
    facadeNe P lhs rhs = !(P.equalsL lhs rhs) ∧
    facadeLt P lhs rhs = decide (P.distanceToL lhs rhs > 0) ∧
    facadeLe P lhs rhs = decide (P.distanceToL lhs rhs ≥ 0) ∧
    facadeGt P lhs rhs = decide (P.distanceToL lhs rhs < 0) ∧
    facadeGe P lhs rhs = decide (P.distanceToL lhs rhs ≤ 0) ∧
    facadeSub P lhs rhs = -(P.distanceToL lhs rhs) := by
  obtain ⟨-, h21⟩ := hboth
  unfold facadeEq facadeNe facadeLt facadeLe facadeGt facadeGe facadeSub
  simp [h21]

/-- Witness for C3: the both-directions hypothesis holds for the same-type
pair `intRA.selfPair`, and the equality component evaluates there. -/
theorem facade_dispatch_prefers_left_witness :
    (intRA.selfPair.conv12 = true ∧ intRA.selfPair.conv21 = true) ∧
    facadeEq intRA.selfPair 4 4 = intRA.selfPair.equalsL 4 4 := by
  exact ⟨⟨rfl, rfl⟩,
    (facade_dispatch_prefers_left intRA.selfPair 4 4 ⟨rfl, rfl⟩).1⟩

/-- Claim C4: the synthesized post-increment returns a copy carrying the
state of the iterator before the increment (hence its dereference equals
the pre-increment dereference), and the iterator itself ends in the state
produced by one application of the `increment` primitive, i.e. the
pre-increment result. -/
theorem fwdPostInc_spec {α V : Type} (F : ForwardPrims α V) (it : α) :
    (fwdPostInc F it).1 = it ∧
    fwdStar F (fwdPostInc F it).1 = fwdStar F it ∧
    (fwdPostInc F it).2 = fwdPreInc F it ∧
    (fwdPostInc F it).2 = F.increment it :=
  ⟨rfl, rfl, rfl, rfl⟩

/-- A concrete `ForwardPrims` instance on integer positions. -/
def intFwd : ForwardPrims Int Int where
  dereference := fun it => it
  equals := fun a b => a == b
  increment := fun it => it + 1

/-- Witness for C4: the claim evaluated on the concrete forward iterator
`intFwd` at position 7. -/
theorem fwdPostInc_spec_witness :
    (fwdPostInc intFwd 7).1 = 7 ∧
    fwdStar intFwd (fwdPostInc intFwd 7).1 = fwdStar intFwd 7 ∧
    (fwdPostInc intFwd 7).2 = fwdPreInc intFwd 7 ∧
    (fwdPostInc intFwd 7).2 = intFwd.increment 7 :=
  fwdPostInc_spec intFwd 7

end Dune

namespace Dune

/-- A mutable concrete iterator type over integer positions; implicitly
convertible to `ConstIt` (the mutable-to-const relationship of the
`TestIterator` documentation example). -/
structure MutIt where
  position : Int

/-- The constant counterpart of `MutIt`; not convertible back to `MutIt`. -/
structure ConstIt where
  position : Int

/-- The implicit conversion from the mutable iterator to its constant
counterpart. -/
def MutIt.toConst (m : MutIt) : ConstIt :=
  ⟨m.position⟩

/-- The `equals` primitive of the constant iterator: positions are equal. -/
def ConstIt.equals (a b : ConstIt) : Bool :=
  a.position == b.position

/-- The facade pair for `m == c` with `m` mutable and `c` constant: the
constant type is not convertible to the mutable type
(`Conversion<T2,T1>::exists` is false), so dispatch goes to the right-hand
side, `c.equals(m)`, converting `m` to const. -/
def mutConstPair : FacadePair MutIt ConstIt where
  conv12 := true
  conv21 := false
  equalsL := fun m c => ConstIt.equals m.toConst c
  equalsR := fun c m => ConstIt.equals c m.toConst
  distanceToL := fun m c => c.position - m.position
  distanceToR := fun c m => m.position - c.position

/-- The facade pair for `c == m` with `c` constant and `m` mutable: the
mutable type is convertible to the constant type
(`Conversion<T2,T1>::exists` is true), so dispatch goes to the left-hand
side, `c.equals(m)`, converting `m` to const. -/
def constMutPair : FacadePair ConstIt MutIt where
  conv12 := false
  conv21 := true
  equalsL := fun c m => ConstIt.equals c m.toConst
  equalsR := fun m c => ConstIt.equals m.toConst c
  distanceToL := fun c m => m.position - c.position
  distanceToR := fun m c => c.position - m.position

/-- Claim C5: for a mutable iterator `m` and the constant iterator
`c = m.toConst` constructed from it, `m == c` and `c == m` both reduce to
the same primitive call `c.equals(m converted to const)`, hence evaluate
identically, and both are true since `m` and `c` denote the same
position. -/
theorem mut_const_eq_symmetric (m : MutIt) :
    facadeEq mutConstPair m m.toConst = ConstIt.equals m.toConst m.toConst ∧
    facadeEq constMutPair m.toConst m = ConstIt.equals m.toConst m.toConst ∧
    facadeEq mutConstPair m m.toConst = facadeEq constMutPair m.toConst m ∧
    facadeEq mutConstPair m m.toConst = true := by
  refine ⟨rfl, rfl, rfl, ?_⟩
  simp [facadeEq, mutConstPair, ConstIt.equals]

/-- Claim C7: the synthesized indexing `a[n]` delegates to `elementAt(n)`;
assuming the concrete `elementAt` agrees with advancing a copy by `n` and
dereferencing, `a[n]` equals `*(a + n)` where `a + n` is the iterator
returned by the synthesized `operator+`. -/
theorem raIndex_eq_star_add {α V : Type} (R : RandomAccessPrims α V)
    (a : α) (n : Int)
    (hAt : ∀ (x : α) (m : Int), R.elementAt x m = R.dereference (R.advance x m)) :
    raIndex R a n = raStar R (raAdd R a n).1 := by
  unfold raIndex raStar raAdd
  exact hAt a n

/-- Witness for C7: the consistency hypothesis holds for `intRA` and the
conclusion evaluates at position 10, offset 3. -/
theorem raIndex_eq_star_add_witness :
    (∀ (x m : Int), intRA.elementAt x m = intRA.dereference (intRA.advance x m)) ∧
    raIndex intRA 10 3 = raStar intRA (raAdd intRA 10 3).1 :=
  ⟨fun x m => rfl, raIndex_eq_star_add intRA 10 3 (fun x m => rfl)⟩

/-- Witness for C5: the claim evaluated for the mutable iterator at
position 2 and its constant counterpart. -/
theorem mut_const_eq_symmetric_witness :
    facadeEq mutConstPair ⟨2⟩ (MutIt.toConst ⟨2⟩) =
      ConstIt.equals (MutIt.toConst ⟨2⟩) (MutIt.toConst ⟨2⟩) ∧
    facadeEq constMutPair (MutIt.toConst ⟨2⟩) ⟨2⟩ =
      ConstIt.equals (MutIt.toConst ⟨2⟩) (MutIt.toConst ⟨2⟩) ∧
    facadeEq mutConstPair ⟨2⟩ (MutIt.toConst ⟨2⟩) =
      facadeEq constMutPair (MutIt.toConst ⟨2⟩) ⟨2⟩ ∧
    facadeEq mutConstPair ⟨2⟩ (MutIt.toConst ⟨2⟩) = true :=
  mut_const_eq_symmetric ⟨2⟩

/-- Claim C6: assuming `equals` is reflexive and `advance`/`distanceTo`
satisfy the consistency condition of spec section 4.3
(`a.advance(d); a.equals(other)` iff `d == a0.distanceTo(other)`) and
antisymmetry, the synthesized operations satisfy `(a + n) - a == n`, where
`-` is the iterator-minus-iterator operator dispatched over the same-type
pair. -/
theorem add_sub_cancel_offset {α V : Type} (R : RandomAccessPrims α V)
    (a : α) (n : Int)
    (hrefl : ∀ x : α, R.equals x x = true)
    (hcons : ∀ (x y : α) (d : Int),
      R.equals (R.advance x d) y = true ↔ d = R.distanceTo x y)
    (hanti : ∀ x y : α, R.distanceTo x y = -(R.distanceTo y x)) :
    facadeSub R.selfPair (raAdd R a n).1 a = n := by
  have hn : n = R.distanceTo a (R.advance a n) :=
    (hcons a (R.advance a n) n).mp (hrefl (R.advance a n))
  have hflip : R.distanceTo (R.advance a n) a = -n := by
    rw [hanti (R.advance a n) a, ← hn]
  simp only [facadeSub, RandomAccessPrims.selfPair, raAdd, if_true]
  omega

/-- Witness for C6: the three hypotheses hold for the concrete instance
`intRA` and the conclusion evaluates at position 3, offset 4. -/
theorem add_sub_cancel_offset_witness :
    ((∀ x : Int, intRA.equals x x = true) ∧
      (∀ (x y d : Int),
        intRA.equals (intRA.advance x d) y = true ↔ d = intRA.distanceTo x y) ∧
      (∀ x y : Int, intRA.distanceTo x y = -(intRA.distanceTo y x))) ∧
    facadeSub intRA.selfPair (raAdd intRA 3 4).1 3 = 4 := by
  have hrefl : ∀ x : Int, intRA.equals x x = true := by
    intro x
    show (x == x) = true
    simp
  have hcons : ∀ (x y d : Int),
      intRA.equals (intRA.advance x d) y = true ↔ d = intRA.distanceTo x y := by
    intro x y d
    show (x + d == y) = true ↔ d = y - x
    rw [beq_iff_eq]
    omega
  have hanti : ∀ x y : Int, intRA.distanceTo x y = -(intRA.distanceTo y x) := by
    intro x y
    show y - x = -(x - y)
    omega
  exact ⟨⟨hrefl, hcons, hanti⟩, add_sub_cancel_offset intRA 3 4 hrefl hcons hanti⟩

/-- Claim C8: assuming the `decrement` primitive undoes the `increment`
primitive at the given position (the position is not at a sequence
boundary) and `equals` is reflexive there, applying the synthesized
pre-increment followed by the synthesized pre-decrement leaves the iterator
equal, by the `equals` primitive, to its original position. -/
theorem bid_inc_dec_round_trip {α V : Type} (B : BidirectionalPrims α V)
    (it : α)
    (hinv : B.decrement (B.increment it) = it)
    (hrefl : B.equals it it = true) :
    B.equals (bidPreDec B (bidPreInc B it)) it = true := by
  unfold bidPreDec bidPreInc
  rw [hinv]
  exact hrefl

/-- Witness for C8: the hypotheses hold for `intBid` at position 5 and the
round trip evaluates there. -/
theorem bid_inc_dec_round_trip_witness :
    (intBid.decrement (intBid.increment 5) = 5 ∧ intBid.equals 5 5 = true) ∧
    intBid.equals (bidPreDec intBid (bidPreInc intBid 5)) 5 = true :=
  ⟨⟨by decide, by decide⟩, bid_inc_dec_round_trip intBid 5 (by decide) (by decide)⟩

/-- Claim C9: the synthesized `a + n` and `a - n` (iterator plus or minus an
offset) leave the iterator `a` itself unchanged: the `advance` primitive is
applied only to the freshly made copy that is returned, and the state of
`a` after the call is its state before it. -/
theorem ra_add_sub_leave_self_unchanged {α V : Type}
    (R : RandomAccessPrims α V) (a : α) (n : Int) :
    (raAdd R a n).2 = a ∧
    (raAdd R a n).1 = R.advance a n ∧
    (raSubOff R a n).2 = a ∧
    (raSubOff R a n).1 = R.advance a (-n) :=
  ⟨rfl, rfl, rfl, rfl⟩

/-- Witness for C9: the claim evaluated on the concrete random access
iterator `intRA` at position 3 with offset 4. -/
theorem ra_add_sub_leave_self_unchanged_witness :
    (raAdd intRA 3 4).2 = 3 ∧
    (raAdd intRA 3 4).1 = intRA.advance 3 4 ∧
    (raSubOff intRA 3 4).2 = 3 ∧
    (raSubOff intRA 3 4).1 = intRA.advance 3 (-4) :=
  ra_add_sub_leave_self_unchanged intRA 3 4

/-- Claim C10: `sign` returns -1 for negative arguments and 1 otherwise,
in particular `sign 0 = 1` (not 0). -/
theorem sign_spec :
    sign 0 = 1 ∧
    (∀ v : Int, v < 0 → sign v = -1) ∧
    (∀ v : Int, ¬(v < 0) → sign v = 1) := by
  refine ⟨rfl, fun v h => ?_, fun v h => ?_⟩ <;> simp [sign, h]

/-- Witness for C10: `sign` evaluated at 0, a negative and a positive
input. -/
theorem sign_spec_witness :
    sign 0 = 1 ∧ sign (-3) = -1 ∧ sign 5 = 1 :=
  ⟨sign_spec.1, sign_spec.2.1 (-3) (by decide), sign_spec.2.2 5 (by decide)⟩

end Dune
